import Mathlib

/-!
Verification of the clustered-locking client `lib/cmgr/cmgr.c`.

The definitions below are a shallow embedding of the C functions of that
file: buffers become `List Char` / `List Nat`, the statics `num_responses`
and `response` become an explicit `Session` value, and the scripted
behaviour of the daemon connection (connect outcome, reply stream) is
passed in as explicit data.  Each claim about the code is then settled as
a theorem about these definitions.
-/

namespace Cmgr

/-- Signature word stored in front of every response-set allocation
(`#define LVM_SIGNATURE 0x434C564D` in cmgr.c). -/
def LVM_SIGNATURE : Nat := 0x434C564D

/-- Linux errno value ENOENT (endpoint absent). -/
def ENOENT : Int := 2

/-- Linux errno value ENOMEM. -/
def ENOMEM : Int := 12

/-- Linux errno value EINVAL. -/
def EINVAL : Int := 22

/-- Linux errno value ENOTCONN. -/
def ENOTCONN : Int := 107

/-- Linux errno value EHOSTDOWN. -/
def EHOSTDOWN : Int := 112

/-- Modelled from the spec: command code for LOCK from the header clvm.h,
which is not under src/; only the distinctness of the four codes matters
to the client code. -/
def CLVMD_CMD_LOCK : Nat := 30

/-- Modelled from the spec: command code for UNLOCK from the missing header clvm.h. -/
def CLVMD_CMD_UNLOCK : Nat := 31

/-- Modelled from the spec: command code for LOCK_SUSPEND from the missing header clvm.h. -/
def CLVMD_CMD_LOCK_SUSPEND : Nat := 32

/-- Modelled from the spec: command code for UNLOCK_RESUME from the missing header clvm.h. -/
def CLVMD_CMD_UNLOCK_RESUME : Nat := 33

/-- Modelled from the spec: the "local-only" flag bit of the wire header
(declared in the missing header clvm.h). -/
def CLVMD_FLAG_LOCAL : Nat := 1

/-- The NUL byte as a character. -/
def NULc : Char := Char.ofNat 0

/-! ## Codec: request header (`build_header`) -/

/-- The fixed request/reply header `struct clvm_header`: command, status,
flags, client id, argument length, and the NUL-terminated node-name field
(kept as a `String`; NUL termination is implicit in the model). -/
structure clvm_header where
  cmd : Nat
  status : Int
  flags : Nat
  clientid : Nat
  arglen : Nat
  node : String
deriving DecidableEq

/-- Embedding of `build_header` of cmgr.c: fills the fixed fields, then
parses out the wildcard node names: `"*"` gives an empty node field,
`"."` gives an empty node field with the local flag, any other string is
copied literally, and a NULL node pointer gives an empty node field. -/
def build_header (cmd : Nat) (node : Option String) (len : Nat) : clvm_header :=
  match node with
  | some n =>
    if n = "*" then ⟨cmd, 0, 0, 0, len, ""⟩
    else if n = "." then ⟨cmd, 0, CLVMD_FLAG_LOCAL, 0, len, ""⟩
    else ⟨cmd, 0, 0, 0, len, n⟩
  | none => ⟨cmd, 0, 0, 0, len, ""⟩

/-! ## Codec: lock-payload marshalling (`lock_for_cluster` / `unlock_for_cluster`) -/

/-- Embedding of C `strcpy(buf + i, s)`: writes the bytes of `s` into the
buffer starting at offset `i`, followed by a terminating NUL byte. -/
def strcpyAt : List Char → Nat → List Char → List Char
  | buf, i, [] => buf.set i NULc
  | buf, i, c :: cs => strcpyAt (buf.set i c) (i + 1) cs

/-- The `args` buffer that both `lock_for_cluster` and `unlock_for_cluster`
of cmgr.c marshal into the request: `len = strlen(name)+2` (or `2` with a
NULL name), `alloca(len)`, `strcpy(args+1, name)` (or `args[1] = '\0'`),
then `args[0] = scope`.  The fresh buffer is modelled as NUL-filled; every
byte of it is overwritten below. -/
def lock_args (scope : Char) (name : Option (List Char)) : List Char :=
  match name with
  | some n =>
    let len := n.length + 2
    let args := List.replicate len NULc
    (strcpyAt args 1 n).set 0 scope
  | none =>
    let args := List.replicate 2 NULc
    ((args.set 1 NULc).set 0 scope)

/-- The payload as the spec describes it (for comparison with `lock_args`):
scope character, then a NUL byte, then the name, then a NUL byte. -/
def spec_payload (scope : Char) (name : Option (List Char)) : List Char :=
  scope :: NULc :: (name.getD [] ++ [NULc])

/-! ### Characterisation of `strcpyAt` and `lock_args` -/

theorem strcpyAt_cons (s : List Char) : ∀ (x : Char) (rest : List Char) (i : Nat),
    strcpyAt (x :: rest) (i + 1) s = x :: strcpyAt rest i s := by
  induction s with
  | nil => intro x rest i; rfl
  | cons c cs ih =>
    intro x rest i
    show strcpyAt ((x :: rest).set (i + 1) c) (i + 2) cs
        = x :: strcpyAt (rest.set i c) (i + 1) cs
    exact ih x (rest.set i c) (i + 1)

theorem strcpyAt_replicate (s : List Char) : ∀ k : Nat,
    strcpyAt (List.replicate (s.length + 1 + k) NULc) 0 s
      = s ++ NULc :: List.replicate k NULc := by
  induction s with
  | nil =>
    intro k
    simp only [List.length_nil]
    rw [show (0 : Nat) + 1 + k = k + 1 from by omega, List.replicate_succ]
    rfl
  | cons c cs ih =>
    intro k
    have h : (c :: cs).length + 1 + k = (cs.length + 1 + k) + 1 := by
      simp [List.length_cons]; omega
    rw [h, List.replicate_succ]
    show strcpyAt (c :: List.replicate (cs.length + 1 + k) NULc) (0 + 1) cs
        = c :: (cs ++ NULc :: List.replicate k NULc)
    rw [strcpyAt_cons cs c (List.replicate (cs.length + 1 + k) NULc) 0, ih k]

theorem lock_args_some (scope : Char) (n : List Char) :
    lock_args scope (some n) = scope :: (n ++ [NULc]) := by
  show (strcpyAt (List.replicate (n.length + 2) NULc) 1 n).set 0 scope
      = scope :: (n ++ [NULc])
  have h : n.length + 2 = (n.length + 1 + 0) + 1 := by omega
  rw [h, List.replicate_succ]
  have h2 : strcpyAt (NULc :: List.replicate (n.length + 1 + 0) NULc) (0 + 1) n
      = NULc :: strcpyAt (List.replicate (n.length + 1 + 0) NULc) 0 n :=
    strcpyAt_cons n NULc (List.replicate (n.length + 1 + 0) NULc) 0
  rw [show (1 : Nat) = 0 + 1 from rfl, h2, strcpyAt_replicate n 0]
  rfl

theorem lock_args_none (scope : Char) : lock_args scope none = [scope, NULc] := rfl

/-! ## Exchange: `send_request` -/

/-- The fields of the reply header that `send_request` inspects. -/
structure ReplyHeader where
  status : Int
  arglen : Int
deriving DecidableEq

/-- The scripted outcome of the initial `read` of the reply header:
an error (`read` negative), EOF (zero-length read), or a successful read
of `len` bytes whose decoded header is `h`. -/
inductive HeaderRead where
  | err
  | eof
  | got (h : ReplyHeader) (len : Int)

/-- Result of one `send_request` call: `-1` style IO failures, the `-2`
remote-error return (errno taken from the negated header status), or
success (`0`). -/
inductive SendResult where
  | writeErr
  | readErr
  | eofErr
  | allocErr
  | remoteErr (errno : Int)
  | ok
deriving DecidableEq

/-- Embedding of the body-read loop of `send_request`:
`while (off < arglen && len > 0) { len = read(...); if (len > 0) off += len; }`.
`chunks` scripts the successive `read` return values; an exhausted script
stands for a connection that would block (the claims only use scripts that
end in an explicit EOF, a `0` chunk).  Returns the final `off`. -/
def read_loop (arglen : Int) : Int → Int → List Int → Int
  | off, _, [] => off
  | off, len, c :: rest =>
    if off < arglen ∧ len > 0 then
      read_loop arglen (if c > 0 then off + c else off) c rest
    else off

/-- Embedding of `send_request` of cmgr.c.  `writeOk` scripts the initial
`write` (false = short write), `allocOk` the `malloc` of the reply buffer,
`hr` the header read and `chunks` the body reads.  Returns the result
together with the final byte count `off` collected by the body loop
(which starts at 1: the first args byte arrives with the header). -/
def send_request (writeOk : Bool) (allocOk : Bool) (hr : HeaderRead)
    (chunks : List Int) : SendResult × Int :=
  if !writeOk then (.writeErr, 0)
  else
    match hr with
    | .err => (.readErr, 0)
    | .eof => (.eofErr, 0)
    | .got h len =>
      if !allocOk then (.allocErr, 0)
      else
        let off := read_loop h.arglen 1 len chunks
        if h.status < 0 then (.remoteErr (-h.status), off)
        else (.ok, off)

/-! ## Response set: unpacking (`cluster_request`) and freeing
(`cluster_free_request`) -/

/-- One record of the wire reply stream: NUL-terminated node name, status
int, NUL-terminated response string. -/
structure WireRecord where
  node : String
  status : Int
  resp : String
deriving DecidableEq

/-- One entry of the unpacked `lvm_response_t` array; the `response`
buffer is modelled by an abstract allocation id (`none` = NULL pointer:
the just-failed `malloc`). -/
structure REntry where
  node : String
  status : Int
  response : Option Nat
deriving DecidableEq

instance : Inhabited REntry := ⟨⟨"", 0, none⟩⟩

/-- Embedding of a single `free` call on a response buffer: `free(NULL)`
is a no-op; freeing a real buffer records its id. -/
def free_buf (p : Option Nat) (freed : List Nat) : List Nat :=
  match p with
  | none => freed
  | some b => freed ++ [b]

/-- Embedding of the failure-cleanup loop of `cluster_request`, transcribed
literally from the source: `for (j = 0; j < i; j++) free(rarray[i].response);`
— every iteration frees the same pointer `p = rarray[i].response` (the loop
index `j` is never used in the body). -/
def cleanup_frees (p : Option Nat) : Nat → List Nat
  | 0 => []
  | j + 1 => free_buf p (cleanup_frees p j)

/-- Outcome of the unpack loop: the completed entry array, or out-of-memory
together with the list of buffer ids that were freed during cleanup and
whether the set allocation itself (`outptr`) was freed. -/
inductive UnpackOut where
  | ok (rarray : List REntry)
  | oom (freed : List Nat) (setFreed : Bool)
deriving DecidableEq

/-- Embedding of the unpack loop of `cluster_request`: entry `i` gets a
fresh buffer (id `i`) unless `allocFail i`, in which case
`rarray[i].response` is NULL, the cleanup loop above runs, `outptr` is
freed and ENOMEM is reported. -/
def unpack_loop (allocFail : Nat → Bool) :
    List WireRecord → Nat → List REntry → UnpackOut
  | [], _, rarray => .ok rarray
  | r :: rest, i, rarray =>
    if allocFail i then
      let rarray2 := rarray ++ [⟨r.node, r.status, none⟩]
      .oom (cleanup_frees (rarray2.getD i default).response i) true
    else unpack_loop allocFail rest (i + 1) (rarray ++ [⟨r.node, r.status, some i⟩])

/-- What sits behind a pointer handed to `cluster_free_request`: `none`
models a NULL pointer, otherwise the two sanity ints written in front of
the array (`ptr[0]` the signature, `ptr[1]` the count) and the entries. -/
structure RSet where
  sig : Nat
  count : Nat
  entries : List REntry
deriving DecidableEq

/-- Embedding of `cluster_free_request` of cmgr.c.  Returns the C return
value, the response buffers passed to `free` in order, and whether the set
allocation (`ptr`) itself was freed.  On a NULL pointer or a signature
mismatch it returns `-1` (errno EINVAL) and frees nothing. -/
def cluster_free_request (p : Option RSet) : Int × List (Option Nat) × Bool :=
  match p with
  | none => (-1, [], false)
  | some s =>
    if s.sig ≠ LVM_SIGNATURE then (-1, [], false)
    else (0, (List.range s.count).map (fun i => (s.entries.getD i default).response), true)

/-! ### Helper: a `range`/`getD` loop over a list visits exactly the list -/

theorem range_map_getD {α β : Type} (l : List α) (f : α → β) (d : α) :
    (List.range l.length).map (fun i => f (l.getD i d)) = l.map f := by
  induction l with
  | nil => simp
  | cons a t ih =>
    have h : ((fun i => f ((a :: t).getD i d)) ∘ Nat.succ) = fun i => f (t.getD i d) := by
      funext i
      simp [List.getD_cons_succ]
    rw [List.length_cons, List.range_succ_eq_map, List.map_cons, List.map_map, h]
    simp only [List.getD_cons_zero, List.map_cons]
    rw [ih]

/-! ## Distributed lock coordinator (`lock_for_cluster` / `unlock_for_cluster`) -/

/-- One entry of the decoded `lvm_response_t` array as the coordinator
sees it (the owned response buffer is kept as its string contents here). -/
structure lvm_response_t where
  node : String
  status : Int
  response : String
deriving DecidableEq

instance : Inhabited lvm_response_t := ⟨⟨"", 0, ""⟩⟩

/-- The two statics shared by lock and unlock:
`static int num_responses; static lvm_response_t *response;`. -/
structure Session where
  num_responses : Nat
  response : List lvm_response_t
deriving DecidableEq

/-- One `cluster_request`/`cluster_write` call as issued on the wire:
command, the node argument handed to `build_header`, and the marshalled
payload bytes. -/
structure WireReq where
  cmd : Nat
  node : String
  args : List Char
deriving DecidableEq

/-- The per-index view of the stored response array that the coordinator
loops (`for (i = 0; i < num_responses; i++) ... response[i]`) traverse. -/
def entries (s : Session) : List lvm_response_t :=
  (List.range s.num_responses).map (fun i => s.response.getD i default)

/-- Embedding of the directed-unlock loop of `unlock_for_cluster`: walk the
stored acquire responses in order and issue one directed request per entry
whose acquire status was 0; entries with non-zero status are only logged. -/
def unlock_loop (cmd : Nat) (args : List Char) : List lvm_response_t → List WireReq
  | [] => []
  | r :: rest =>
    if r.status = 0 then ⟨cmd, r.node, args⟩ :: unlock_loop cmd args rest
    else unlock_loop cmd args rest

/-- Result of one `unlock_for_cluster` call: the C return value, the
`cluster_request` calls issued in order, the statics afterwards, and
whether the stored set was handed to `cluster_free_request`. -/
structure UnlockOut where
  status : Int
  trace : List WireReq
  session : Session
  respFreed : Bool
deriving DecidableEq

/-- Embedding of `unlock_for_cluster` of cmgr.c.  Nothing to do when the
stored count is zero; invalid scope is EINVAL; otherwise marshal the args,
count the failed acquire entries, and either unlock each succeeded node
with a directed request or issue one broadcast (node `""`) request.  The
stored set is freed at the end, but note that the statics themselves are
returned unchanged: the source never resets `num_responses`. -/
def unlock_for_cluster (s : Session) (scope : Char) (name : Option (List Char))
    (suspend : Bool) : UnlockOut :=
  if s.num_responses = 0 then ⟨0, [], s, false⟩
  else if scope ≠ 'V' ∧ scope ≠ 'L' ∧ scope ≠ 'G' then ⟨-1, [], s, false⟩
  else
    let args := lock_args scope name
    let cmd := if suspend then CLVMD_CMD_UNLOCK_RESUME else CLVMD_CMD_UNLOCK
    let es := entries s
    let failed := (es.filter (fun r => !(r.status == 0))).length
    let trace := if failed ≠ 0 then unlock_loop cmd args es else [⟨cmd, "", args⟩]
    ⟨0, trace, s, true⟩

/-- The scripted outcome of the single `cluster_request` that
`lock_for_cluster` issues: connect failure with a given errno, a clean
reply with the unpacked per-node responses, or the `-2` remote-error
return (negative header status, errno already set to its negation) whose
reply is still unpacked. -/
inductive ExchangeOutcome where
  | connFail (e : Int)
  | replyOk (resps : List lvm_response_t)
  | remoteErr (e : Int) (resps : List lvm_response_t)
deriving DecidableEq

/-- Embedding of the errno dance around the cleanup in `lock_for_cluster`:
`saved_errno = errno; cluster_free_request(response); num_responses = 0;
errno = saved_errno;` — `after_free` is whatever value the free call left
in errno (EINVAL when the stale pointer is refused); the restore makes the
saved value the one the caller sees. -/
def restore_errno (saved _after_free : Int) : Int := saved

/-- Result of one `lock_for_cluster` call: the C return value, the errno
the caller observes, the statics afterwards, the requests issued, and
whether the stored set was handed to `cluster_free_request`. -/
structure LockOut where
  status : Int
  errno : Int
  session : Session
  trace : List WireReq
  respFreed : Bool
deriving DecidableEq

/-- Embedding of `lock_for_cluster` of cmgr.c.  Validate the scope,
marshal the args, broadcast LOCK/LOCK_SUSPEND via `cluster_request`
(scripted by `env`; note `cluster_request` zeroes `num_responses` before
anything else), force the result to failure when any entry came back
EHOSTDOWN, and on failure free the stored set, zero the count and restore
errno around the cleanup. -/
def lock_for_cluster (env : ExchangeOutcome) (s0 : Session) (errno0 : Int)
    (freeClobber : Int) (scope : Char) (name : Option (List Char))
    (suspend : Bool) : LockOut :=
  if scope ≠ 'V' ∧ scope ≠ 'L' ∧ scope ≠ 'G' then ⟨-1, EINVAL, s0, [], false⟩
  else
    let args := lock_args scope name
    let cmd := if suspend then CLVMD_CMD_LOCK_SUSPEND else CLVMD_CMD_LOCK
    match env with
    | .connFail e =>
      ⟨-1, restore_errno e freeClobber, ⟨0, s0.response⟩, [], true⟩
    | .replyOk resps =>
      if resps.any (fun r => r.status == -EHOSTDOWN) then
        ⟨-1, restore_errno errno0 freeClobber, ⟨0, resps⟩, [⟨cmd, "", args⟩], true⟩
      else ⟨0, errno0, ⟨resps.length, resps⟩, [⟨cmd, "", args⟩], false⟩
    | .remoteErr e resps =>
      if resps.any (fun r => r.status == -EHOSTDOWN) then
        ⟨-1, restore_errno e freeClobber, ⟨0, resps⟩, [⟨cmd, "", args⟩], true⟩
      else ⟨-2, restore_errno e freeClobber, ⟨0, resps⟩, [⟨cmd, "", args⟩], true⟩

/-! ## Scope API (`lock_vg` / `unlock_vg`) -/

/-- Result of one `lock_vg` call: the C return value, the errno observed,
the static `clustered` and `suspended` flags afterwards, the statics of
the coordinator, the wire requests issued, and the
`suspend_lvs_in_vg(vg, flag)` collaborator calls made. -/
structure VgLockOut where
  status : Int
  errno : Int
  clustered : Bool
  suspended : Bool
  session : Session
  trace : List WireReq
  localSuspendCalls : List (String × Nat)
deriving DecidableEq

/-- Embedding of `lock_vg` of cmgr.c: remember the suspend flag, try the
clustered lock with scope 'V', and on a `-1` failure whose errno is ENOENT
fall back to non-clustered mode, calling `suspend_lvs_in_vg(vg, 1)` —
note the literal `1` in the source — and returning success. -/
def lock_vg (env : ExchangeOutcome) (s0 : Session) (errno0 freeClobber : Int)
    (vgname : String) (suspend : Bool) : VgLockOut :=
  let r := lock_for_cluster env s0 errno0 freeClobber 'V' (some vgname.data) suspend
  if r.status = -1 then
    if r.errno = ENOENT then
      ⟨0, r.errno, false, suspend, r.session, r.trace, [(vgname, 1)]⟩
    else ⟨-1, r.errno, true, suspend, r.session, r.trace, []⟩
  else ⟨r.status, r.errno, true, suspend, r.session, r.trace, []⟩

/-- Embedding of `unlock_vg` of cmgr.c: when not clustered, call
`activate_lvs_in_vg(vg)` and return 0 with no wire traffic; otherwise run
`unlock_for_cluster` with scope 'V'.  Returns the C return value, the wire
requests issued, and the reactivate collaborator calls made. -/
def unlock_vg (clustered : Bool) (suspended : Bool) (s : Session)
    (vgname : String) : Int × List WireReq × List String :=
  if !clustered then (0, [], [vgname])
  else ((unlock_for_cluster s 'V' (some vgname.data) suspended).status,
        (unlock_for_cluster s 'V' (some vgname.data) suspended).trace, [])

/-! ### Helpers for the coordinator -/

theorem entries_eq (s : Session) (h : s.num_responses = s.response.length) :
    entries s = s.response := by
  unfold entries
  rw [h]
  have h2 := range_map_getD s.response (fun r => r) default
  simpa using h2

theorem unlock_loop_eq (cmd : Nat) (args : List Char) (l : List lvm_response_t) :
    unlock_loop cmd args l
      = (l.filter (fun r => r.status == 0)).map
          (fun r => (⟨cmd, r.node, args⟩ : WireReq)) := by
  induction l with
  | nil => rfl
  | cons r t ih =>
    by_cases h : r.status = 0
    · simp [unlock_loop, List.filter_cons, h, ih]
    · simp [unlock_loop, List.filter_cons, h, ih]

/-! ## Claims -/

/-- C9: `build_header` maps target `"*"` to an empty wire node field with
the local flag unset, `"."` to an empty node field with the local flag
set, and any other non-empty string to a literal copy of that string with
the local flag unset. -/
theorem C9_build_header_cases (cmd len : Nat) :
    build_header cmd (some "*") len = ⟨cmd, 0, 0, 0, len, ""⟩
    ∧ build_header cmd (some ".") len = ⟨cmd, 0, CLVMD_FLAG_LOCAL, 0, len, ""⟩
    ∧ ∀ s : String, s ≠ "*" → s ≠ "." → s ≠ "" →
        build_header cmd (some s) len = ⟨cmd, 0, 0, 0, len, s⟩ := by
  refine ⟨by simp [build_header], by simp [build_header], ?_⟩
  intro s h1 h2 _
  simp [build_header, h1, h2]

/-- Witness for C9 at a concrete directed node name. -/
theorem C9_build_header_witness :
    build_header 30 (some "node7") 5 = ⟨30, 0, 0, 0, 5, "node7"⟩ :=
  (C9_build_header_cases 30 5).2.2 "node7" (by decide) (by decide) (by decide)

/-- C2 counterexample: with scope 'V' and an absent name the marshalled
payload is `['V', NUL]` of length 2, not the claimed
scope-NUL-name-NUL sequence of length 3 (there is no NUL byte between the
scope character and the name). -/
theorem C2_payload_cex :
    lock_args 'V' none ≠ spec_payload 'V' none
    ∧ (lock_args 'V' none).length = 2
    ∧ (spec_payload 'V' none).length = 3 := by decide

/-- C2 amended: the marshalled payload is the scope character immediately
followed by the name bytes and a single trailing NUL — no NUL after the
scope — so its length is length(name) + 2, or 2 when the name is absent. -/
theorem C2_payload_amended (scope : Char) (n : List Char) :
    lock_args scope (some n) = scope :: (n ++ [NULc])
    ∧ (lock_args scope (some n)).length = n.length + 2
    ∧ lock_args scope none = [scope, NULc] := by
  refine ⟨lock_args_some scope n, ?_, lock_args_none scope⟩
  rw [lock_args_some scope n]
  simp

/-- C3 counterexample: the reply header declares arglen 10 with status 0
and the body read hits EOF immediately (only 1 byte collected); the
exchange still returns success, not a fatal protocol/IO error. -/
theorem C3_truncated_cex :
    send_request true true (.got ⟨0, 10⟩ 32) [0] = (.ok, 1) ∧ (1 : Int) < 10 := by
  decide

/-- C3 amended: EOF on the initial header read is fatal (errno ENOTCONN);
but after a header has been read, the body-read loop merely stops on EOF
and the exchange's result is decided by the header status alone — success
whenever the status is non-negative — even when fewer than arglen reply
bytes were collected. -/
theorem C3_amended_eof (h : ReplyHeader) (len : Int) (chunks : List Int) :
    ((send_request true true (.got h len) chunks).1
      = if h.status < 0 then SendResult.remoteErr (-h.status) else SendResult.ok)
    ∧ send_request true true .eof chunks = (.eofErr, 0) := by
  constructor
  · by_cases hs : h.status < 0 <;> simp [send_request, hs]
  · rfl

/-- C4 (code bug evaluation): on a reply with two records where the malloc
for entry 1 fails, the cleanup frees no buffer at all — the loop frees
`rarray[1].response` (the just-failed NULL pointer) once per prior entry
instead of the prior entries' buffers — so entry 0's buffer (id 0, as the
successful run shows) is leaked; the set allocation is freed and
out-of-memory is reported. -/
theorem C4_cleanup_eval :
    unpack_loop (fun i => i == 1) [⟨"n1", 0, "ok"⟩, ⟨"n2", 0, "ok"⟩] 0 []
      = .oom [] true
    ∧ unpack_loop (fun _ => false) [⟨"n1", 0, "ok"⟩, ⟨"n2", 0, "ok"⟩] 0 []
      = .ok [⟨"n1", 0, some 0⟩, ⟨"n2", 0, some 1⟩] := by decide

/-- C8: `cluster_free_request` on a NULL pointer or a signature mismatch
returns -1 (EINVAL) and frees nothing; with a matching signature it frees
exactly the response buffer of every entry counted in the header, in
order, and then the set allocation, returning 0. -/
theorem C8_free_contract :
    cluster_free_request none = (-1, [], false)
    ∧ (∀ s : RSet, s.sig ≠ LVM_SIGNATURE → cluster_free_request (some s) = (-1, [], false))
    ∧ (∀ s : RSet, s.sig = LVM_SIGNATURE → s.count = s.entries.length →
        cluster_free_request (some s)
          = (0, s.entries.map (fun r => r.response), true)) := by
  refine ⟨rfl, ?_, ?_⟩
  · intro s h
    simp [cluster_free_request, h]
  · intro s h hc
    simp only [cluster_free_request, h, hc]
    rw [range_map_getD s.entries (fun r => r.response) default]
    simp

/-- Witness for C8: a valid one-entry set is fully freed; a zero signature
is refused. -/
theorem C8_free_contract_witness :
    cluster_free_request (some ⟨LVM_SIGNATURE, 1, [⟨"A", 0, some 7⟩]⟩)
      = (0, [some 7], true)
    ∧ cluster_free_request (some ⟨0, 1, [⟨"A", 0, some 7⟩]⟩) = (-1, [], false) := by
  constructor
  · exact (C8_free_contract.2.2 ⟨LVM_SIGNATURE, 1, [⟨"A", 0, some 7⟩]⟩ rfl
      (by decide)).trans (by decide)
  · exact C8_free_contract.2.1 ⟨0, 1, [⟨"A", 0, some 7⟩]⟩ (by decide)

/-- C1: unlocking a held session routes by the stored acquire statuses:
with at least one failed entry, the issued requests are exactly one
directed UNLOCK (or UNLOCK_RESUME) per entry whose acquire status was 0,
in order — never to a failed node, and never a broadcast (every issued
request carries a non-empty node name that `build_header` copies literally
with the local flag unset); with no failed entry, exactly one broadcast
request (empty node argument) is issued and no directed ones. -/
theorem C1_unlock_routing (s : Session) (scope : Char) (name : Option (List Char))
    (susp : Bool) (hwf : s.num_responses = s.response.length)
    (hne : s.response ≠ [])
    (hscope : scope = 'V' ∨ scope = 'L' ∨ scope = 'G')
    (hnode : ∀ r ∈ s.response, r.node ≠ "" ∧ r.node ≠ "*" ∧ r.node ≠ ".") :
    ((∃ r ∈ s.response, r.status ≠ 0) →
      (unlock_for_cluster s scope name susp).trace
        = (s.response.filter (fun r => r.status == 0)).map
            (fun r => (⟨if susp then CLVMD_CMD_UNLOCK_RESUME else CLVMD_CMD_UNLOCK,
                        r.node, lock_args scope name⟩ : WireReq))
      ∧ ∀ req ∈ (unlock_for_cluster s scope name susp).trace,
          req.node ≠ ""
          ∧ (build_header req.cmd (some req.node) req.args.length).node = req.node
          ∧ (build_header req.cmd (some req.node) req.args.length).flags = 0)
    ∧ ((∀ r ∈ s.response, r.status = 0) →
      (unlock_for_cluster s scope name susp).trace
        = [⟨if susp then CLVMD_CMD_UNLOCK_RESUME else CLVMD_CMD_UNLOCK, "",
            lock_args scope name⟩]) := by
  have h0 : ¬ s.num_responses = 0 := by
    rw [hwf]
    simpa using hne
  have hsc : ¬ (scope ≠ 'V' ∧ scope ≠ 'L' ∧ scope ≠ 'G') := by
    rcases hscope with h | h | h <;> simp [h]
  have hes : entries s = s.response := entries_eq s hwf
  have htr : (unlock_for_cluster s scope name susp).trace
      = (if ((s.response.filter (fun r => !(r.status == 0))).length ≠ 0)
         then unlock_loop (if susp then CLVMD_CMD_UNLOCK_RESUME else CLVMD_CMD_UNLOCK)
                (lock_args scope name) s.response
         else [⟨if susp then CLVMD_CMD_UNLOCK_RESUME else CLVMD_CMD_UNLOCK, "",
               lock_args scope name⟩]) := by
    simp only [unlock_for_cluster, if_neg h0, if_neg hsc, hes]
  constructor
  · intro hex
    have hcond : (s.response.filter (fun r => !(r.status == 0))).length ≠ 0 := by
      obtain ⟨r, hr, hst⟩ := hex
      have hmem : r ∈ s.response.filter (fun r => !(r.status == 0)) := by
        rw [List.mem_filter]
        exact ⟨hr, by simp [hst]⟩
      intro hlen
      rw [List.length_eq_zero] at hlen
      rw [hlen] at hmem
      exact absurd hmem (List.not_mem_nil r)
    have htr2 : (unlock_for_cluster s scope name susp).trace
        = (s.response.filter (fun r => r.status == 0)).map
            (fun r => (⟨if susp then CLVMD_CMD_UNLOCK_RESUME else CLVMD_CMD_UNLOCK,
                        r.node, lock_args scope name⟩ : WireReq)) := by
      rw [htr, if_pos hcond, unlock_loop_eq]
    refine ⟨htr2, ?_⟩
    intro req hreq
    rw [htr2] at hreq
    obtain ⟨r, hrf, hre⟩ := List.mem_map.mp hreq
    have hr : r ∈ s.response := (List.mem_filter.mp hrf).1
    obtain ⟨hn1, hn2, hn3⟩ := hnode r hr
    subst hre
    exact ⟨hn1, by simp [build_header, hn2, hn3], by simp [build_header, hn2, hn3]⟩
  · intro hall
    have hnil : s.response.filter (fun r => !(r.status == 0)) = [] := by
      rw [List.filter_eq_nil_iff]
      intro r hr
      simp [hall r hr]
    have hcond : ¬ ((s.response.filter (fun r => !(r.status == 0))).length ≠ 0) := by
      simp [hnil]
    rw [htr, if_neg hcond]

/-- Witness for C1: three stored entries of which "B" failed; exactly the
two directed unlocks to "A" and "C" are issued. -/
theorem C1_unlock_routing_witness :
    (unlock_for_cluster ⟨3, [⟨"A", 0, "ok"⟩, ⟨"B", -112, "down"⟩, ⟨"C", 0, "ok"⟩]⟩
        'V' none false).trace
      = [⟨CLVMD_CMD_UNLOCK, "A", lock_args 'V' none⟩,
         ⟨CLVMD_CMD_UNLOCK, "C", lock_args 'V' none⟩] := by
  have h := (C1_unlock_routing
      ⟨3, [⟨"A", 0, "ok"⟩, ⟨"B", -112, "down"⟩, ⟨"C", 0, "ok"⟩]⟩ 'V' none false
      rfl (by decide) (Or.inl rfl) (by decide)).1
      ⟨⟨"B", -112, "down"⟩, by decide, by decide⟩
  exact h.1.trans (by decide)

/-- C5 (code bug evaluation): after a completed unlock of a held session
the source has freed the stored set (`respFreed`) but the stored count is
still 1 — `num_responses` is never reset — so an immediately following
unlock is not a no-op: it issues wire traffic against the freed set. -/
theorem C5_count_not_reset :
    (unlock_for_cluster ⟨1, [⟨"A", 0, "ok"⟩]⟩ 'V' none false).status = 0
    ∧ (unlock_for_cluster ⟨1, [⟨"A", 0, "ok"⟩]⟩ 'V' none false).respFreed = true
    ∧ (unlock_for_cluster ⟨1, [⟨"A", 0, "ok"⟩]⟩ 'V' none false).session.num_responses = 1
    ∧ (unlock_for_cluster
        (unlock_for_cluster ⟨1, [⟨"A", 0, "ok"⟩]⟩ 'V' none false).session
        'V' none false).trace ≠ [] := by decide

/-- C7: calling unlock when the stored response count is zero returns
success, issues no wire request and frees nothing, for any scope (even an
invalid one), name and suspend flag. -/
theorem C7_unlock_noop (s : Session) (scope : Char) (name : Option (List Char))
    (susp : Bool) (h : s.num_responses = 0) :
    unlock_for_cluster s scope name susp = ⟨0, [], s, false⟩ := by
  simp [unlock_for_cluster, h]

/-- Witness for C7, with an invalid scope character. -/
theorem C7_unlock_noop_witness :
    unlock_for_cluster ⟨0, []⟩ 'Z' none true = ⟨0, [], ⟨0, []⟩, false⟩ :=
  C7_unlock_noop ⟨0, []⟩ 'Z' none true rfl

/-- C6 counterexample: the connect fails with ENOENT while the caller's
suspend flag is 0 (false); `lock_vg` does fall back successfully, but it
invokes `suspend_lvs_in_vg` with the literal flag 1, not the caller's 0. -/
theorem C6_fallback_cex :
    (lock_vg (.connFail ENOENT) ⟨0, []⟩ 0 EINVAL "vg01" false).localSuspendCalls
      = [("vg01", 1)]
    ∧ (lock_vg (.connFail ENOENT) ⟨0, []⟩ 0 EINVAL "vg01" false).localSuspendCalls
      ≠ [("vg01", 0)] := by decide

/-- C6 amended: when the connect fails with ENOENT, `lock_vg` returns
success with clustered = false, performs no wire operation, and invokes
the local-suspend collaborator exactly once with the volume group and the
constant flag 1 (regardless of the caller's suspend flag); the matching
`unlock_vg` in non-clustered mode invokes local-reactivate exactly once,
performs zero wire operations and returns success. -/
theorem C6_fallback_amended (s0 : Session) (e0 c : Int) (vg : String) (susp : Bool) :
    (lock_vg (.connFail ENOENT) s0 e0 c vg susp).status = 0
    ∧ (lock_vg (.connFail ENOENT) s0 e0 c vg susp).clustered = false
    ∧ (lock_vg (.connFail ENOENT) s0 e0 c vg susp).localSuspendCalls = [(vg, 1)]
    ∧ (lock_vg (.connFail ENOENT) s0 e0 c vg susp).trace = []
    ∧ unlock_vg false susp s0 vg = (0, [], [vg]) := by
  refine ⟨?_, ?_, ?_, ?_, rfl⟩ <;> simp [lock_vg, lock_for_cluster, restore_errno]

/-- C10: the whole result of `lock_for_cluster` — its errno included — is
independent of whatever errno value the cleanup's `cluster_free_request`
leaves behind (the save/restore around the cleanup), and on a connect
failure with errno e the caller observes status -1 with errno e, so the
scope API's fallback test errno == ENOENT reads the connect failure's
errno. -/
theorem C10_errno_preserved (env : ExchangeOutcome) (s0 : Session)
    (e0 c1 c2 e : Int) (scope : Char) (name : Option (List Char)) (susp : Bool) :
    lock_for_cluster env s0 e0 c1 scope name susp
      = lock_for_cluster env s0 e0 c2 scope name susp
    ∧ (lock_for_cluster (.connFail e) s0 e0 c1 'V' name susp).status = -1
    ∧ (lock_for_cluster (.connFail e) s0 e0 c1 'V' name susp).errno = e := by
  refine ⟨?_, rfl, rfl⟩
  cases env <;> simp [lock_for_cluster, restore_errno]

end Cmgr
